import Mathlib

set_option maxRecDepth 8192

/-!
Verification of the Sumble backend query compiler (app/query_builder.py,
app/models.py, app/api.py): a shallow embedding of the data model and of
the compilation pipeline, followed by theorems about the compiler.
-/

namespace Sumble

/-- Field enumeration from app/models.py (FieldType). -/
inductive FieldType where
  | technology
  | job_function
  | organization
deriving DecidableEq

/-- A single search condition from app/models.py (Condition). -/
structure Condition where
  field : FieldType
  value : String
deriving DecidableEq

/-- Logical operator enumeration from app/models.py (LogicalOperator). -/
inductive LogicalOperator where
  | AND
  | OR
  | NOT
deriving DecidableEq

/-- Query tree node from app/models.py (QueryNode): a record with a string
type tag and three optional fields, mirroring the pydantic model where
operator, condition and children are all Optional. -/
inductive QueryNode where
  | mk (type : String) (operator : Option LogicalOperator)
       (condition : Option Condition) (children : Option (List QueryNode))

/-- Python exceptions that the compiler code can raise: the explicit
ValueError in QueryBuilder, and the implicit AttributeError (attribute
access on None), IndexError (children[0] on an empty list) and TypeError
(subscripting or iterating None). -/
inductive PyErr where
  | valueError (msg : String)
  | attributeError
  | indexError
  | typeError
deriving DecidableEq

/-- Python str.join with the pieces in a list: concatenates the strings
separated by the separator. -/
def strJoin (sep : String) : List String → String
  | [] => ""
  | [s] => s
  | s :: rest => s ++ sep ++ strJoin sep rest

/-- The field-to-column mapping inside QueryBuilder (field_mapping in the
source). -/
def field_mapping : FieldType → String
  | .technology => "t.name"
  | .job_function => "jf.name"
  | .organization => "o.name"

/-- QueryBuilder build_condition: emits the ILIKE predicate with the next
placeholder ordinal, the wildcard-wrapped value, and the advanced offset. -/
def build_condition (condition : Condition) (param_offset : Nat) :
    String × List String × Nat :=
  (field_mapping condition.field ++ " ILIKE $" ++ toString (param_offset + 1),
   ["%" ++ condition.value ++ "%"], param_offset + 1)

mutual

/-- QueryBuilder build_where_clause: dispatch on the type tag of the node.
A condition node carrying no condition hits attribute access on None in the
source (AttributeError); an unknown tag raises the ValueError. -/
def build_where_clause : QueryNode → Nat → Except PyErr (String × List String × Nat)
  | .mk ty op cond children, param_offset =>
    if ty = "condition" then
      match cond with
      | some c => .ok (build_condition c param_offset)
      | none => .error .attributeError
    else if ty = "operator" then
      build_operator op children param_offset
    else
      .error (.valueError ("Unknown node type: " ++ ty))

/-- QueryBuilder build_operator: the NOT branch compiles children[0] only
(IndexError on an empty list, TypeError on None); the AND/OR branch runs
the accumulation loop and joins the clauses with the operator keyword,
choosing the AND separator exactly when the operator equals AND. -/
def build_operator (op : Option LogicalOperator) (children : Option (List QueryNode))
    (param_offset : Nat) : Except PyErr (String × List String × Nat) :=
  if op = some .NOT then
    match children with
    | none => .error .typeError
    | some [] => .error .indexError
    | some (c :: _) => do
      let (sub_clause, params, next_offset) ← build_where_clause c param_offset
      return ("NOT (" ++ sub_clause ++ ")", params, next_offset)
  else
    match children with
    | none => .error .typeError
    | some cs => do
      let (clauses, all_params, current_offset) ← and_or_loop cs param_offset [] []
      let operator := if op = some LogicalOperator.AND then " AND " else " OR "
      return (strJoin operator clauses, all_params, current_offset)

/-- The for-loop inside QueryBuilder build_operator for AND and OR:
threads the offset through the children left to right, appending each
parenthesized child clause and extending the parameter list. -/
def and_or_loop : List QueryNode → Nat → List String → List String →
    Except PyErr (List String × List String × Nat)
  | [], current_offset, clauses, all_params => .ok (clauses, all_params, current_offset)
  | c :: cs, current_offset, clauses, all_params => do
    let (sub_clause, params, next) ← build_where_clause c current_offset
    and_or_loop cs next (clauses ++ ["(" ++ sub_clause ++ ")"]) (all_params ++ params)

end

mutual

/-- QueryBuilder collect_required_fields: the set of fields needing joins.
A condition node contributes its field (AttributeError when the condition
is absent); an operator node with truthy children unions its children;
anything else contributes nothing. -/
def collect_required_fields : QueryNode → Except PyErr (List FieldType)
  | .mk ty _ cond children =>
    if ty = "condition" then
      match cond with
      | some c => .ok [c.field]
      | none => .error .attributeError
    else if ty = "operator" then
      match children with
      | none => .ok []
      | some [] => .ok []
      | some (c :: cs) => collect_loop (c :: cs)
    else .ok []

/-- The update loop inside collect_required_fields. -/
def collect_loop : List QueryNode → Except PyErr (List FieldType)
  | [] => .ok []
  | c :: cs => do
    let fs ← collect_required_fields c
    let rest ← collect_loop cs
    return fs ++ rest

end

/-- QueryBuilder build_base_query: the SELECT and the joins present in the
required field set, in the fixed order organization, technology,
job_function. -/
def build_base_query (required_fields : List FieldType) : String :=
  strJoin " "
    (["SELECT DISTINCT jp.id, jp.datetime_pulled", "FROM job_posts jp"]
      ++ (if FieldType.organization ∈ required_fields then
            ["INNER JOIN organizations o ON jp.organization_id = o.id"] else [])
      ++ (if FieldType.technology ∈ required_fields then
            ["INNER JOIN job_posts_tech jpt ON jp.id = jpt.job_post_id",
             "INNER JOIN tech t ON jpt.tech_id = t.id"] else [])
      ++ (if FieldType.job_function ∈ required_fields then
            ["INNER JOIN job_posts_job_functions jpjf ON jp.id = jpjf.job_post_id",
             "INNER JOIN job_functions jf ON jpjf.job_function_id = jf.id"] else []))

/-- QueryBuilder build_query: collect the joins, build the base statement,
build the WHERE clause from offset 0, and splice the limit in verbatim. -/
def build_query (node : QueryNode) (limit : Int) :
    Except PyErr (String × List String) := do
  let required_joins ← collect_required_fields node
  let base_query := build_base_query required_joins
  let (where_clause, params, _) ← build_where_clause node 0
  return (base_query ++ " WHERE " ++ where_clause ++ " LIMIT " ++ toString limit, params)

/-- Outcome of the search handler, up to the hand-off to the external
executor: either the statement and parameters are handed over for
execution, or an HTTP error is returned first. -/
inductive ApiOutcome where
  | executed (sql : String) (params : List String)
  | httpError (status : Nat) (detail : String)
deriving DecidableEq

/-- The search_jobs handler in app/api.py: builds the query inside try; a
ValueError becomes HTTP 400 carrying the error text, any other exception
becomes HTTP 500 with an opaque detail; on success the statement and
parameters go to the executor. -/
def search_jobs (query : QueryNode) (limit : Int) : ApiOutcome :=
  match build_query query limit with
  | .ok (sql, params) => .executed sql params
  | .error (.valueError msg) => .httpError 400 msg
  | .error _ => .httpError 500 "Internal server error"

/-! ### Placeholder scanner

A placeholder in the emitted predicate text is a dollar sign followed by a
maximal nonempty run of decimal digits. The scanner walks the text left to
right and returns the digit strings of the placeholders in order. -/

/-- State of the placeholder scanner: outside any placeholder, right after
a dollar sign, or inside the digit run of a placeholder. -/
inductive ScanState where
  | outside
  | dollar
  | num (acc : List Char)
deriving DecidableEq

/-- One scanner step: reads one character and returns the next state
together with the placeholder digit strings completed by this character. -/
def scanStep : ScanState → Char → ScanState × List String
  | .outside, c => ((if c = '$' then .dollar else .outside), [])
  | .dollar, c =>
    if c.isDigit then (.num [c], [])
    else ((if c = '$' then .dollar else .outside), [])
  | .num acc, c =>
    if c.isDigit then (.num (acc ++ [c]), [])
    else ((if c = '$' then .dollar else .outside), [String.mk acc])

/-- The placeholder completed by reaching the end of the text, if any. -/
def scanFlush : ScanState → List String
  | .num acc => [String.mk acc]
  | _ => []

/-- Run the scanner over a character list from a given state, flushing a
trailing placeholder at the end. -/
def scanFrom : ScanState → List Char → List String
  | st, [] => scanFlush st
  | st, c :: cs => (scanStep st c).2 ++ scanFrom (scanStep st c).1 cs

/-- Output of the scanner over a character list, without the final flush. -/
def scanPartial : ScanState → List Char → List String
  | _, [] => []
  | st, c :: cs => (scanStep st c).2 ++ scanPartial (scanStep st c).1 cs

/-- State of the scanner after consuming a character list. -/
def scanStateAfter : ScanState → List Char → ScanState
  | st, [] => st
  | st, c :: cs => scanStateAfter (scanStep st c).1 cs

/-- The decimal placeholder ordinals occurring in a predicate text, as
digit strings, in left-to-right order of the placeholders in the text. -/
def placeholders (s : String) : List String :=
  scanFrom .outside s.data

/-- The first character of the string, if any, is not a decimal digit. -/
def headNotDigit (s : String) : Prop :=
  ∀ c, s.data.head? = some c → c.isDigit = false

/-! ### Well-formed query trees -/

/-- Well-formed query trees per the data model in the spec: a condition
node carries exactly a condition; an operator node carries an operator and
a nonempty list of well-formed children, exactly one of them for NOT. -/
inductive WF : QueryNode → Prop where
  | cond (c : Condition) : WF (.mk "condition" none (some c) none)
  | op (o : LogicalOperator) (cs : List QueryNode) :
      cs ≠ [] → (o = .NOT → cs.length = 1) → (∀ c ∈ cs, WF c) →
      WF (.mk "operator" (some o) none (some cs))

mutual

/-- Modelled from the claim wording, as the reference side of the join-set
claim: the fields referenced by any Condition node anywhere in the tree,
at any nesting depth, independent of the operators combining them. -/
def spec_condition_fields : QueryNode → List FieldType
  | .mk ty _ cond children =>
    (if ty = "condition" then
       (match cond with | some c => [c.field] | none => []) else [])
    ++ (match children with
        | some cs => spec_condition_fields_list cs
        | none => [])

/-- Pointwise extension of spec_condition_fields to a list of nodes. -/
def spec_condition_fields_list : List QueryNode → List FieldType
  | [] => []
  | c :: cs => spec_condition_fields c ++ spec_condition_fields_list cs

end

/-- Modelled from the claim wording, as the reference side of the AND/OR
claim: compile the children in left-to-right order, wrap each compiled
child predicate in parentheses, thread the offset through, and concatenate
the parameter lists in the same left-to-right order. -/
def spec_compile_children : List QueryNode → Nat →
    Except PyErr (List String × List String × Nat)
  | [], k => .ok ([], [], k)
  | c :: cs, k => do
    let (s, ps, k1) ← build_where_clause c k
    let (cls, ps2, k2) ← spec_compile_children cs k1
    return (("(" ++ s ++ ")") :: cls, ps ++ ps2, k2)

/-! ### Concrete example trees -/

/-- Example tree: the single condition organization apple. -/
def exCond : QueryNode := .mk "condition" none (some ⟨.organization, "apple"⟩) none

/-- Example tree: AND of the conditions organization apple and
technology .net. -/
def exAnd : QueryNode :=
  .mk "operator" (some .AND) none (some
    [.mk "condition" none (some ⟨.organization, "apple"⟩) none,
     .mk "condition" none (some ⟨.technology, ".net"⟩) none])

/-- Example tree: NOT of an OR of two organization conditions, conjoined
with a job_function condition; threads three placeholders. -/
def exNested : QueryNode :=
  .mk "operator" (some .AND) none (some
    [.mk "operator" (some .NOT) none (some
      [.mk "operator" (some .OR) none (some
        [.mk "condition" none (some ⟨.organization, "google"⟩) none,
         .mk "condition" none (some ⟨.organization, "apple"⟩) none])]),
     .mk "condition" none (some ⟨.job_function, "data"⟩) none])

/-- Example tree: AND of NOT(technology) and NOT(organization). -/
def exDoubleNot : QueryNode :=
  .mk "operator" (some .AND) none (some
    [.mk "operator" (some .NOT) none (some
      [.mk "condition" none (some ⟨.technology, "java"⟩) none]),
     .mk "operator" (some .NOT) none (some
      [.mk "condition" none (some ⟨.organization, "apple"⟩) none])])

/-- Example tree: a NOT node carrying two children. -/
def exNotTwo : QueryNode :=
  .mk "operator" (some .NOT) none (some
    [.mk "condition" none (some ⟨.technology, "java"⟩) none,
     .mk "condition" none (some ⟨.organization, "ibm"⟩) none])

/-- Example node with an unknown type tag. -/
def exBadTag : QueryNode := .mk "filter" none none none

/-- Example node: NOT with an empty children list. -/
def exNotNil : QueryNode := .mk "operator" (some .NOT) none (some [])

/-- Example node: AND with an empty children list. -/
def exAndNil : QueryNode := .mk "operator" (some .AND) none (some [])

/-- The invariant tying a clause emitted at offset k to its parameters:
the next offset advances by the parameter count, the placeholder ordinals
in text order are the decimal texts of offset+1 .. offset+count, and the
clause does not start with a digit. -/
abbrev GoodClause (s : String) (ps : List String) (k k2 : Nat) : Prop :=
  k2 = k + ps.length ∧
  placeholders s = (List.range' (k + 1) ps.length).map (fun i => toString i) ∧
  headNotDigit s

/-! ### Scanner lemmas -/

theorem scanFrom_append (a : List Char) : ∀ (st : ScanState) (b : List Char),
    scanFrom st (a ++ b) = scanPartial st a ++ scanFrom (scanStateAfter st a) b := by
  induction a with
  | nil => intro st b; simp [scanPartial, scanStateAfter]
  | cons c cs ih =>
    intro st b
    simp [scanFrom, scanPartial, scanStateAfter, ih]

theorem scanFrom_eq_partial_flush (a : List Char) :
    ∀ st, scanFrom st a = scanPartial st a ++ scanFlush (scanStateAfter st a) := by
  induction a with
  | nil => intro st; simp [scanFrom, scanPartial, scanStateAfter]
  | cons c cs ih =>
    intro st
    simp [scanFrom, scanPartial, scanStateAfter, ih]

theorem scanStep_not_digit (st : ScanState) (c : Char) (h : c.isDigit = false) :
    scanStep st c = ((scanStep .outside c).1, scanFlush st) := by
  cases st <;> simp [scanStep, scanFlush, h]

theorem scan_append (a b : List Char)
    (hb : ∀ c, b.head? = some c → c.isDigit = false) :
    scanFrom .outside (a ++ b) = scanFrom .outside a ++ scanFrom .outside b := by
  cases b with
  | nil => simp [scanFrom, scanFlush, scanFrom_eq_partial_flush]
  | cons c cs =>
    have hc : c.isDigit = false := hb c rfl
    rw [scanFrom_append, scanFrom_eq_partial_flush a .outside]
    have hstep := scanStep_not_digit (scanStateAfter .outside a) c hc
    calc scanPartial .outside a ++ scanFrom (scanStateAfter .outside a) (c :: cs)
        = scanPartial .outside a ++
            ((scanStep (scanStateAfter .outside a) c).2 ++
              scanFrom (scanStep (scanStateAfter .outside a) c).1 cs) := rfl
      _ = scanPartial .outside a ++
            (scanFlush (scanStateAfter .outside a) ++
              scanFrom (scanStep .outside c).1 cs) := by rw [hstep]
      _ = (scanPartial .outside a ++ scanFlush (scanStateAfter .outside a)) ++
            ((scanStep .outside c).2 ++ scanFrom (scanStep .outside c).1 cs) := by
            simp [scanStep]
      _ = (scanPartial .outside a ++ scanFlush (scanStateAfter .outside a)) ++
            scanFrom .outside (c :: cs) := rfl

theorem placeholders_append (s t : String) (ht : headNotDigit t) :
    placeholders (s ++ t) = placeholders s ++ placeholders t := by
  simp only [placeholders, String.data_append]
  exact scan_append s.data t.data ht

theorem scanFrom_num (l : List Char) : ∀ (acc : List Char),
    (∀ c ∈ l, c.isDigit = true) →
    scanFrom (.num acc) l = [String.mk (acc ++ l)] := by
  induction l with
  | nil => intro acc h; simp [scanFrom, scanFlush]
  | cons c cs ih =>
    intro acc h
    have hc := h c (List.mem_cons_self c cs)
    have := ih (acc ++ [c]) (fun d hd => h d (List.mem_cons_of_mem c hd))
    simp [scanFrom, scanStep, hc, this]

theorem scanFrom_dollar (l : List Char) (hne : l ≠ [])
    (h : ∀ c ∈ l, c.isDigit = true) :
    scanFrom .dollar l = [String.mk l] := by
  cases l with
  | nil => cases hne rfl
  | cons c cs =>
    have hc := h c (List.mem_cons_self c cs)
    have := scanFrom_num cs [c] (fun d hd => h d (List.mem_cons_of_mem c hd))
    simp [scanFrom, scanStep, hc, this]

/-! ### Decimal digits of natural numbers -/

theorem digitChar_isDigit (m : Nat) (h : m < 10) : (Nat.digitChar m).isDigit = true := by
  interval_cases m <;> decide

theorem toDigitsCore_digits : ∀ (fuel n : Nat) (ds : List Char),
    (∀ c ∈ ds, c.isDigit = true) →
    ∀ c ∈ Nat.toDigitsCore 10 fuel n ds, c.isDigit = true := by
  intro fuel
  induction fuel with
  | zero => intro n ds h; simpa [Nat.toDigitsCore] using h
  | succ f ih =>
    intro n ds h c hc
    rw [Nat.toDigitsCore] at hc
    have hd : (Nat.digitChar (n % 10)).isDigit = true :=
      digitChar_isDigit _ (Nat.mod_lt _ (by norm_num))
    by_cases h0 : n / 10 = 0
    · simp only [h0, if_pos] at hc
      rcases List.mem_cons.mp hc with h1 | h1
      · rw [h1]; exact hd
      · exact h c h1
    · simp only [h0, if_neg, if_false] at hc
      refine ih (n / 10) (Nat.digitChar (n % 10) :: ds) ?_ c hc
      intro d hdm
      rcases List.mem_cons.mp hdm with h1 | h1
      · rw [h1]; exact hd
      · exact h d h1

theorem toDigitsCore_ne_nil : ∀ (fuel n : Nat) (ds : List Char),
    fuel ≠ 0 ∨ ds ≠ [] → Nat.toDigitsCore 10 fuel n ds ≠ [] := by
  intro fuel
  induction fuel with
  | zero =>
    intro n ds h
    rcases h with h | h
    · exact absurd rfl h
    · simpa [Nat.toDigitsCore] using h
  | succ f ih =>
    intro n ds _
    rw [Nat.toDigitsCore]
    by_cases h0 : n / 10 = 0
    · simp [h0]
    · simp only [h0, if_neg, if_false]
      exact ih (n / 10) _ (Or.inr (by simp))

theorem toString_nat_data (n : Nat) : (toString n).data = Nat.toDigits 10 n := rfl

theorem toString_nat_digits (n : Nat) : ∀ c ∈ (toString n).data, c.isDigit = true := by
  rw [toString_nat_data]
  exact toDigitsCore_digits (n + 1) n [] (by simp)

theorem toString_nat_ne_nil (n : Nat) : (toString n).data ≠ [] := by
  rw [toString_nat_data]
  exact toDigitsCore_ne_nil (n + 1) n [] (Or.inl (Nat.succ_ne_zero n))

/-! ### Placeholders of the emitted pieces -/

theorem placeholders_ilike (f : FieldType) (m : Nat) :
    placeholders (field_mapping f ++ " ILIKE $" ++ toString m) = [toString m] := by
  have hd : (field_mapping f ++ " ILIKE $" ++ toString m).data
      = (field_mapping f ++ " ILIKE $").data ++ (toString m).data :=
    String.data_append _ _
  rw [placeholders, hd, scanFrom_append]
  have h1 : scanPartial .outside (field_mapping f ++ " ILIKE $").data = [] := by
    cases f <;> rfl
  have h2 : scanStateAfter .outside (field_mapping f ++ " ILIKE $").data = .dollar := by
    cases f <;> rfl
  rw [h1, h2, scanFrom_dollar _ (toString_nat_ne_nil m) (toString_nat_digits m)]
  rfl

theorem headNotDigit_ilike (f : FieldType) (m : Nat) :
    headNotDigit (field_mapping f ++ " ILIKE $" ++ toString m) := by
  intro c hc
  have hd : (field_mapping f ++ " ILIKE $" ++ toString m).data
      = (field_mapping f ++ " ILIKE $").data ++ (toString m).data :=
    String.data_append _ _
  rw [hd] at hc
  cases f <;> (simp only [field_mapping] at hc) <;>
    (simp at hc; rw [← hc]; decide)

theorem headNotDigit_append (s t : String) (hs : headNotDigit s)
    (ht : headNotDigit t) : headNotDigit (s ++ t) := by
  intro c hc
  rw [String.data_append] at hc
  cases hsd : s.data with
  | nil => rw [hsd] at hc; exact ht c (by simpa using hc)
  | cons x xs =>
    rw [hsd] at hc
    simp at hc
    exact hs c (by rw [hsd]; simpa using hc)

theorem headNotDigit_of_head (s : String) (ch : Char) (hs : s.data.head? = some ch)
    (hch : ch.isDigit = false) : headNotDigit s := by
  intro c hc
  rw [hs] at hc
  injection hc with h
  rw [← h]
  exact hch

theorem placeholders_wrap (s : String) (hs : headNotDigit s) :
    placeholders ("(" ++ s ++ ")") = placeholders s := by
  rw [placeholders_append ("(" ++ s) ")"
        (headNotDigit_of_head _ ')' rfl (by decide)),
      placeholders_append "(" s hs]
  have h1 : placeholders "(" = [] := rfl
  have h2 : placeholders ")" = [] := rfl
  simp [h1, h2]

theorem placeholders_not_wrap (s : String) (hs : headNotDigit s) :
    placeholders ("NOT (" ++ s ++ ")") = placeholders s := by
  rw [placeholders_append ("NOT (" ++ s) ")"
        (headNotDigit_of_head _ ')' rfl (by decide)),
      placeholders_append "NOT (" s hs]
  have h1 : placeholders "NOT (" = [] := rfl
  have h2 : placeholders ")" = [] := rfl
  simp [h1, h2]

theorem wrap_head (s : String) :
    ("(" ++ s ++ ")").data.head? = some '(' := by
  rw [String.data_append, String.data_append]
  rfl

theorem strJoin_cons_cons (sep a b : String) (t : List String) :
    strJoin sep (a :: b :: t) = a ++ sep ++ strJoin sep (b :: t) := rfl

theorem strJoin_head (sep w : String) (t : List String) (ch : Char)
    (hw : w.data.head? = some ch) :
    (strJoin sep (w :: t)).data.head? = some ch := by
  cases t with
  | nil => simpa [strJoin] using hw
  | cons b t2 =>
    rw [strJoin_cons_cons, String.data_append, String.data_append]
    simp [hw]

theorem except_bind_ok {ε α β : Type} (a : α) (f : α → Except ε β) :
    (Except.ok a >>= f) = f a := rfl

theorem except_bind_error {ε α β : Type} (e : ε) (f : α → Except ε β) :
    ((Except.error e : Except ε α) >>= f) = Except.error e := rfl

/-- Appending to the clause and parameter accumulators of the AND/OR loop
commutes with running the loop on empty accumulators. -/
theorem and_or_loop_shift (cs : List QueryNode) : ∀ (k : Nat) (cl ps : List String),
    and_or_loop cs k cl ps =
      (and_or_loop cs k [] []).map (fun r => (cl ++ r.1, ps ++ r.2.1, r.2.2)) := by
  induction cs with
  | nil => intro k cl ps; simp [and_or_loop, Except.map]
  | cons c cs ih =>
    intro k cl ps
    simp only [and_or_loop]
    cases hb : build_where_clause c k with
    | error e => simp [except_bind_error, Except.map]
    | ok r =>
      obtain ⟨s, p, k1⟩ := r
      simp only [except_bind_ok]
      rw [ih k1 (cl ++ ["(" ++ s ++ ")"]) (ps ++ p), ih k1 ([] ++ ["(" ++ s ++ ")"]) ([] ++ p)]
      cases and_or_loop cs k1 [] [] with
      | error e => rfl
      | ok r2 =>
        obtain ⟨cls2, ps2, k2⟩ := r2
        simp [Except.map]

theorem and_or_loop_good (cs : List QueryNode)
    (hcs : ∀ c ∈ cs, ∀ k, ∃ s ps k2,
      build_where_clause c k = .ok (s, ps, k2) ∧ GoodClause s ps k k2) :
    ∀ k, ∃ cls ps k2, and_or_loop cs k [] [] = .ok (cls, ps, k2) ∧
      k2 = k + ps.length ∧ cls.length = cs.length ∧
      (∀ w ∈ cls, w.data.head? = some '(') ∧
      (∀ sep : String, headNotDigit sep → placeholders sep = [] →
        placeholders (strJoin sep cls) =
          (List.range' (k + 1) ps.length).map (fun i => toString i)) := by
  induction cs with
  | nil =>
    intro k
    refine ⟨[], [], k, rfl, by simp, rfl, by simp, ?_⟩
    intro sep _ _
    have h0 : placeholders (strJoin sep []) = [] := rfl
    simp [h0]
  | cons c cs ih =>
    intro k
    obtain ⟨s, p, k1, hb, hk1, hph, hhead⟩ := hcs c (List.mem_cons_self c cs) k
    obtain ⟨cls2, ps2, k2, hloop, hk2, hlen, hheads, hjoin⟩ :=
      ih (fun d hd => hcs d (List.mem_cons_of_mem c hd)) k1
    refine ⟨("(" ++ s ++ ")") :: cls2, p ++ ps2, k2, ?_, ?_, ?_, ?_, ?_⟩
    · simp only [and_or_loop, hb, except_bind_ok]
      rw [and_or_loop_shift cs k1 ([] ++ ["(" ++ s ++ ")"]) ([] ++ p), hloop]
      simp [Except.map]
    · rw [hk2, hk1]; simp; omega
    · simp [hlen]
    · intro w hw
      rcases List.mem_cons.mp hw with h1 | h1
      · rw [h1]; exact wrap_head s
      · exact hheads w h1
    · intro sep hsep hsepph
      have hps2len : ps2.length = k2 - k1 := by omega
      cases hcls2 : cls2 with
      | nil =>
        have h0 : placeholders (strJoin sep ([] : List String)) = [] := rfl
        have := hjoin sep hsep hsepph
        rw [hcls2, h0] at this
        have hlen0 : ps2.length = 0 :=
          List.range'_eq_nil.mp (List.map_eq_nil_iff.mp this.symm)
        have hps2 : ps2 = [] := List.length_eq_zero.mp hlen0
        rw [hps2]
        have hj1 : strJoin sep [("(" ++ s ++ ")")] = "(" ++ s ++ ")" := rfl
        rw [hj1, placeholders_wrap s hhead, hph]
        simp
      | cons w2 t2 =>
        rw [strJoin_cons_cons]
        have hw2head : w2.data.head? = some '(' := hheads w2 (by rw [hcls2]; simp)
        have hrj : headNotDigit (strJoin sep (w2 :: t2)) :=
          headNotDigit_of_head _ '(' (strJoin_head sep w2 t2 '(' hw2head) (by decide)
        rw [placeholders_append ("(" ++ s ++ ")" ++ sep) (strJoin sep (w2 :: t2)) hrj,
            placeholders_append ("(" ++ s ++ ")") sep hsep,
            placeholders_wrap s hhead, hsepph, hph]
        rw [← hcls2, hjoin sep hsep hsepph, hk1]
        simp only [List.append_nil]
        rw [show k + p.length + 1 = (k + 1) + p.length by omega]
        rw [← List.map_append, List.range'_append_1 (k + 1) p.length ps2.length]
        simp [Nat.add_comm]

/-! ### Dispatch equations of the compiler -/

theorem build_where_clause_condition (op : Option LogicalOperator) (c : Condition)
    (children : Option (List QueryNode)) (k : Nat) :
    build_where_clause (.mk "condition" op (some c) children) k =
      .ok (build_condition c k) := rfl

theorem build_where_clause_operator (op : Option LogicalOperator)
    (cond : Option Condition) (children : Option (List QueryNode)) (k : Nat) :
    build_where_clause (.mk "operator" op cond children) k =
      build_operator op children k := rfl

theorem build_where_clause_unknown (ty : String) (op : Option LogicalOperator)
    (cond : Option Condition) (children : Option (List QueryNode)) (k : Nat)
    (h1 : ty ≠ "condition") (h2 : ty ≠ "operator") :
    build_where_clause (.mk ty op cond children) k =
      .error (.valueError ("Unknown node type: " ++ ty)) := by
  simp only [build_where_clause]
  rw [if_neg h1, if_neg h2]

theorem build_operator_not_cons (c : QueryNode) (rest : List QueryNode) (k : Nat) :
    build_operator (some .NOT) (some (c :: rest)) k =
      (build_where_clause c k) >>= fun r =>
        Except.ok ("NOT (" ++ r.1 ++ ")", r.2.1, r.2.2) := rfl

theorem build_operator_not_nil (k : Nat) :
    build_operator (some .NOT) (some []) k = .error .indexError := rfl

theorem build_operator_not_none (k : Nat) :
    build_operator (some .NOT) none k = .error .typeError := rfl

theorem build_operator_and (cs : List QueryNode) (k : Nat) :
    build_operator (some .AND) (some cs) k =
      (and_or_loop cs k [] []) >>= fun r =>
        Except.ok (strJoin " AND " r.1, r.2.1, r.2.2) := rfl

theorem build_operator_or (cs : List QueryNode) (k : Nat) :
    build_operator (some .OR) (some cs) k =
      (and_or_loop cs k [] []) >>= fun r =>
        Except.ok (strJoin " OR " r.1, r.2.1, r.2.2) := rfl

/-! ### The ordering invariant over well-formed trees -/

theorem build_where_clause_good (n : QueryNode) (hwf : WF n) :
    ∀ k, ∃ s ps k2, build_where_clause n k = .ok (s, ps, k2) ∧ GoodClause s ps k k2 := by
  induction hwf with
  | cond c =>
    intro k
    refine ⟨field_mapping c.field ++ " ILIKE $" ++ toString (k + 1),
            ["%" ++ c.value ++ "%"], k + 1, rfl, rfl, ?_,
            headNotDigit_ilike c.field (k + 1)⟩
    rw [placeholders_ilike]
    simp
  | op o cs hne harity hall ih =>
    intro k
    cases o with
    | NOT =>
      obtain ⟨c, rfl⟩ := List.length_eq_one.mp (harity rfl)
      obtain ⟨s, ps, k2, hb, hk2, hph, hhead⟩ := ih c (by simp) k
      refine ⟨"NOT (" ++ s ++ ")", ps, k2, ?_, hk2, ?_, ?_⟩
      · rw [build_where_clause_operator, build_operator_not_cons, hb, except_bind_ok]
      · rw [placeholders_not_wrap s hhead, hph]
      · exact headNotDigit_of_head _ 'N'
          (by rw [String.data_append, String.data_append]; rfl) (by decide)
    | AND =>
      obtain ⟨cls, ps, k2, hloop, hk2, hlen, hheads, hjoin⟩ := and_or_loop_good cs ih k
      have hclsne : cls ≠ [] := by
        intro h0
        rw [h0] at hlen
        exact hne (List.length_eq_zero.mp hlen.symm)
      obtain ⟨w, t, rfl⟩ := List.exists_cons_of_ne_nil hclsne
      refine ⟨strJoin " AND " (w :: t), ps, k2, ?_, hk2, ?_, ?_⟩
      · rw [build_where_clause_operator, build_operator_and, hloop, except_bind_ok]
      · exact hjoin " AND " (headNotDigit_of_head _ ' ' rfl (by decide)) rfl
      · exact headNotDigit_of_head _ '('
          (strJoin_head _ w t '(' (hheads w (by simp))) (by decide)
    | OR =>
      obtain ⟨cls, ps, k2, hloop, hk2, hlen, hheads, hjoin⟩ := and_or_loop_good cs ih k
      have hclsne : cls ≠ [] := by
        intro h0
        rw [h0] at hlen
        exact hne (List.length_eq_zero.mp hlen.symm)
      obtain ⟨w, t, rfl⟩ := List.exists_cons_of_ne_nil hclsne
      refine ⟨strJoin " OR " (w :: t), ps, k2, ?_, hk2, ?_, ?_⟩
      · rw [build_where_clause_operator, build_operator_or, hloop, except_bind_ok]
      · exact hjoin " OR " (headNotDigit_of_head _ ' ' rfl (by decide)) rfl
      · exact headNotDigit_of_head _ '('
          (strJoin_head _ w t '(' (hheads w (by simp))) (by decide)

/-! ### The join-set collector over well-formed trees -/

theorem collect_loop_good (cs : List QueryNode)
    (hcs : ∀ c ∈ cs, ∃ fs, collect_required_fields c = .ok fs ∧
      ∀ f, f ∈ fs ↔ f ∈ spec_condition_fields c) :
    ∃ fs, collect_loop cs = .ok fs ∧
      ∀ f, f ∈ fs ↔ f ∈ spec_condition_fields_list cs := by
  induction cs with
  | nil => exact ⟨[], rfl, by simp [spec_condition_fields_list]⟩
  | cons c cs ih =>
    obtain ⟨fs1, h1, hm1⟩ := hcs c (List.mem_cons_self c cs)
    obtain ⟨fs2, h2, hm2⟩ := ih (fun d hd => hcs d (List.mem_cons_of_mem c hd))
    refine ⟨fs1 ++ fs2, ?_, ?_⟩
    · simp only [collect_loop, h1, h2, except_bind_ok]
      rfl
    · intro f
      simp only [spec_condition_fields_list, List.mem_append, hm1 f, hm2 f]

theorem collect_good (n : QueryNode) (hwf : WF n) :
    ∃ fs, collect_required_fields n = .ok fs ∧
      ∀ f, f ∈ fs ↔ f ∈ spec_condition_fields n := by
  induction hwf with
  | cond c =>
    refine ⟨[c.field], rfl, ?_⟩
    intro f
    rw [show spec_condition_fields (.mk "condition" none (some c) none)
          = [c.field] from rfl]
  | op o cs hne harity hall ih =>
    obtain ⟨fs, hl, hm⟩ := collect_loop_good cs ih
    cases cs with
    | nil => cases hne rfl
    | cons c rest =>
      refine ⟨fs, ?_, ?_⟩
      · rw [show collect_required_fields (.mk "operator" (some o) none (some (c :: rest)))
              = collect_loop (c :: rest) from rfl, hl]
      · intro f
        rw [hm f, show spec_condition_fields (.mk "operator" (some o) none (some (c :: rest)))
              = spec_condition_fields_list (c :: rest) from rfl]

/-! ### Every ValueError of the predicate compiler is an unknown-tag error -/

theorem valueError_shape_aux : ∀ N : Nat,
    (∀ (n : QueryNode) (k : Nat) (msg : String), sizeOf n ≤ N →
      build_where_clause n k = .error (.valueError msg) →
      ∃ ty, msg = "Unknown node type: " ++ ty ∧ ty ≠ "condition" ∧ ty ≠ "operator") ∧
    (∀ (cs : List QueryNode) (k : Nat) (cl ps : List String) (msg : String),
      sizeOf cs ≤ N →
      and_or_loop cs k cl ps = .error (.valueError msg) →
      ∃ ty, msg = "Unknown node type: " ++ ty ∧ ty ≠ "condition" ∧ ty ≠ "operator") := by
  intro N
  induction N with
  | zero =>
    constructor
    · intro n k msg hsz _
      obtain ⟨ty, op, cond, children⟩ := n
      simp at hsz
    · intro cs k cl ps msg hsz h
      cases cs with
      | nil =>
        rw [show and_or_loop [] k cl ps = .ok (cl, ps, k) from rfl] at h
        simp at h
      | cons c rest => simp at hsz
  | succ N ih =>
    constructor
    · intro n k msg hsz h
      obtain ⟨ty, op, cond, children⟩ := n
      by_cases h1 : ty = "condition"
      · subst h1
        cases cond with
        | some c =>
          rw [build_where_clause_condition] at h
          simp at h
        | none =>
          rw [show build_where_clause (.mk "condition" op none children) k
                = .error .attributeError from rfl] at h
          simp at h
      · by_cases h2 : ty = "operator"
        · subst h2
          rw [build_where_clause_operator] at h
          simp at hsz
          by_cases hnot : op = some .NOT
          · subst hnot
            cases children with
            | none => rw [build_operator_not_none] at h; simp at h
            | some l =>
              cases l with
              | nil => rw [build_operator_not_nil] at h; simp at h
              | cons c rest =>
                rw [build_operator_not_cons] at h
                cases hb : build_where_clause c k with
                | error e =>
                  rw [hb, except_bind_error] at h
                  injection h with he
                  subst he
                  refine ih.1 c k msg ?_ hb
                  simp at hsz
                  omega
                | ok r => rw [hb, except_bind_ok] at h; simp at h
          · cases children with
            | none =>
              have hb2 : build_operator op none k = .error .typeError := by
                cases op with
                | none => rfl
                | some o =>
                  cases o with
                  | AND => rfl
                  | OR => rfl
                  | NOT => exact absurd rfl hnot
              rw [hb2] at h
              simp at h
            | some cs =>
              have hb2 : build_operator op (some cs) k
                  = (and_or_loop cs k [] []) >>= fun r =>
                      Except.ok (strJoin
                        (if op = some LogicalOperator.AND then " AND " else " OR ")
                        r.1, r.2.1, r.2.2) := by
                cases op with
                | none => rfl
                | some o =>
                  cases o with
                  | AND => rfl
                  | OR => rfl
                  | NOT => exact absurd rfl hnot
              rw [hb2] at h
              cases hl : and_or_loop cs k [] [] with
              | error e =>
                rw [hl, except_bind_error] at h
                injection h with he
                subst he
                refine ih.2 cs k [] [] msg ?_ hl
                simp at hsz
                omega
              | ok r => rw [hl, except_bind_ok] at h; simp at h
        · rw [build_where_clause_unknown ty op cond children k h1 h2] at h
          injection h with he
          injection he with he2
          exact ⟨ty, he2.symm, h1, h2⟩
    · intro cs k cl ps msg hsz h
      cases cs with
      | nil =>
        rw [show and_or_loop [] k cl ps = .ok (cl, ps, k) from rfl] at h
        simp at h
      | cons c rest =>
        rw [show and_or_loop (c :: rest) k cl ps
              = (build_where_clause c k) >>= fun r =>
                  and_or_loop rest r.2.2 (cl ++ ["(" ++ r.1 ++ ")"]) (ps ++ r.2.1)
              from rfl] at h
        cases hb : build_where_clause c k with
        | error e =>
          rw [hb, except_bind_error] at h
          injection h with he
          subst he
          refine ih.1 c k msg ?_ hb
          simp at hsz
          omega
        | ok r =>
          rw [hb, except_bind_ok] at h
          refine ih.2 rest r.2.2 (cl ++ ["(" ++ r.1 ++ ")"]) (ps ++ r.2.1) msg ?_ h
          simp at hsz
          omega

/-! ### Further dispatch facts and well-formedness of the examples -/

theorem collect_unknown (ty : String) (op : Option LogicalOperator)
    (cond : Option Condition) (children : Option (List QueryNode))
    (h1 : ty ≠ "condition") (h2 : ty ≠ "operator") :
    collect_required_fields (.mk ty op cond children) = .ok [] := by
  rw [collect_required_fields.eq_def]
  dsimp only
  rw [if_neg h1, if_neg h2]

theorem and_or_loop_eq_spec (cs : List QueryNode) :
    ∀ k, and_or_loop cs k [] [] = spec_compile_children cs k := by
  induction cs with
  | nil => intro k; rfl
  | cons c cs ih =>
    intro k
    simp only [and_or_loop, spec_compile_children]
    cases hb : build_where_clause c k with
    | error e => rfl
    | ok r =>
      obtain ⟨s, p, k1⟩ := r
      simp only [except_bind_ok, List.nil_append]
      rw [and_or_loop_shift cs k1, ih k1]
      cases spec_compile_children cs k1 with
      | error e => rfl
      | ok r2 => rfl

theorem WF_exCond : WF exCond := WF.cond ⟨.organization, "apple"⟩

theorem WF_exAnd : WF exAnd := by
  apply WF.op
  · simp
  · intro h; exact absurd h (by decide)
  · intro c hc
    rcases List.mem_cons.mp hc with rfl | hc
    · exact WF.cond _
    · rcases List.mem_cons.mp hc with rfl | hc
      · exact WF.cond _
      · simp at hc

theorem WF_exNested : WF exNested := by
  apply WF.op
  · simp
  · intro h; exact absurd h (by decide)
  · intro c hc
    rcases List.mem_cons.mp hc with rfl | hc
    · apply WF.op
      · simp
      · intro _; rfl
      · intro d hd
        rcases List.mem_cons.mp hd with rfl | hd
        · apply WF.op
          · simp
          · intro h; exact absurd h (by decide)
          · intro e he
            rcases List.mem_cons.mp he with rfl | he
            · exact WF.cond _
            · rcases List.mem_cons.mp he with rfl | he
              · exact WF.cond _
              · simp at he
        · simp at hd
    · rcases List.mem_cons.mp hc with rfl | hc
      · exact WF.cond _
      · simp at hc

theorem WF_exDoubleNot : WF exDoubleNot := by
  apply WF.op
  · simp
  · intro h; exact absurd h (by decide)
  · intro c hc
    rcases List.mem_cons.mp hc with rfl | hc
    · apply WF.op
      · simp
      · intro _; rfl
      · intro d hd
        rcases List.mem_cons.mp hd with rfl | hd
        · exact WF.cond _
        · simp at hd
    · rcases List.mem_cons.mp hc with rfl | hc
      · apply WF.op
        · simp
        · intro _; rfl
        · intro d hd
          rcases List.mem_cons.mp hd with rfl | hd
          · exact WF.cond _
          · simp at hd
      · simp at hc

/-! ### Claim theorems -/

/-- C1: for every well-formed query tree compiled at any parameter start
offset, the emitted predicate contains exactly as many placeholders as
there are entries in the returned parameter list, and reading the
placeholders left to right in the predicate text, the Nth placeholder
ordinal is the decimal numeral of offset+N, so the Nth parameter in the
list is the value bound by the Nth placeholder. -/
theorem C1_placeholder_ordering (n : QueryNode) (k : Nat) (s : String)
    (ps : List String) (k2 : Nat) (hwf : WF n)
    (h : build_where_clause n k = .ok (s, ps, k2)) :
    (placeholders s).length = ps.length ∧
    placeholders s = (List.range' (k + 1) ps.length).map (fun i => toString i) := by
  obtain ⟨s2, ps2, k22, h2, hk2, hph, hhead⟩ := build_where_clause_good n hwf k
  have he := h.symm.trans h2
  injection he with he2
  injection he2 with hs hrest
  injection hrest with hps hk
  subst hs
  subst hps
  refine ⟨?_, hph⟩
  rw [hph]
  simp

/-- C1 witness: the nested example tree at offset 0 emits three
placeholders numbered 1, 2, 3 matching its three parameters. -/
theorem C1_witness :
    (placeholders "(NOT ((o.name ILIKE $1) OR (o.name ILIKE $2))) AND (jf.name ILIKE $3)").length = 3 ∧
    placeholders "(NOT ((o.name ILIKE $1) OR (o.name ILIKE $2))) AND (jf.name ILIKE $3)" =
      (List.range' 1 3).map (fun i => toString i) :=
  C1_placeholder_ordering exNested 0
    "(NOT ((o.name ILIKE $1) OR (o.name ILIKE $2))) AND (jf.name ILIKE $3)"
    ["%google%", "%apple%", "%data%"] 3 WF_exNested rfl

/-- C2: a Condition node with field f and value v compiled at offset k
emits the mapped column followed by ILIKE and placeholder k+1, returns
the single parameter v wrapped in percent wildcards, and advances the
offset by exactly one; the single organization apple condition yields
o.name ILIKE with placeholder 1, parameter list percent apple percent,
and a base statement holding only the organization join. -/
theorem C2_condition_node :
    (∀ (op : Option LogicalOperator) (ch : Option (List QueryNode)) (f : FieldType)
       (v : String) (k : Nat),
      build_where_clause (.mk "condition" op (some ⟨f, v⟩) ch) k =
        .ok (field_mapping f ++ " ILIKE $" ++ toString (k + 1),
             ["%" ++ v ++ "%"], k + 1)) ∧
    field_mapping .organization = "o.name" ∧
    build_query exCond 10 =
      .ok ("SELECT DISTINCT jp.id, jp.datetime_pulled FROM job_posts jp INNER JOIN organizations o ON jp.organization_id = o.id WHERE o.name ILIKE $1 LIMIT 10",
           ["%apple%"]) :=
  ⟨fun _ _ _ _ _ => rfl, rfl, rfl⟩

/-- C3: an AND or OR node compiles its children left to right, wraps each
compiled child predicate in parentheses, joins them with the operator
keyword spaced on both sides, and concatenates the child parameter lists
in the same left-to-right order; the AND of organization apple and
technology .net yields the two parenthesized predicates in order with the
two parameters in order, and a base statement with the organization then
technology joins. -/
theorem C3_and_or_node :
    (∀ (cnd : Option Condition) (cs : List QueryNode) (k : Nat),
      build_where_clause (.mk "operator" (some .AND) cnd (some cs)) k =
        (spec_compile_children cs k).map
          (fun r => (strJoin " AND " r.1, r.2.1, r.2.2))) ∧
    (∀ (cnd : Option Condition) (cs : List QueryNode) (k : Nat),
      build_where_clause (.mk "operator" (some .OR) cnd (some cs)) k =
        (spec_compile_children cs k).map
          (fun r => (strJoin " OR " r.1, r.2.1, r.2.2))) ∧
    build_where_clause exAnd 0 =
      .ok ("(o.name ILIKE $1) AND (t.name ILIKE $2)", ["%apple%", "%.net%"], 2) ∧
    build_query exAnd 10 =
      .ok ("SELECT DISTINCT jp.id, jp.datetime_pulled FROM job_posts jp INNER JOIN organizations o ON jp.organization_id = o.id INNER JOIN job_posts_tech jpt ON jp.id = jpt.job_post_id INNER JOIN tech t ON jpt.tech_id = t.id WHERE (o.name ILIKE $1) AND (t.name ILIKE $2) LIMIT 10",
           ["%apple%", "%.net%"]) := by
  refine ⟨?_, ?_, rfl, rfl⟩
  · intro cnd cs k
    rw [build_where_clause_operator, build_operator_and, and_or_loop_eq_spec cs k]
    cases spec_compile_children cs k with
    | error e => rfl
    | ok r => rfl
  · intro cnd cs k
    rw [build_where_clause_operator, build_operator_or, and_or_loop_eq_spec cs k]
    cases spec_compile_children cs k with
    | error e => rfl
    | ok r => rfl

/-- C4: a NOT node with exactly one child emits NOT around the compiled
child predicate in parentheses, returns exactly the child parameter list,
and returns the child next offset, so parameter indices continue
sequentially into whatever is compiled next. -/
theorem C4_not_node (c : QueryNode) (cnd : Option Condition) (k : Nat) :
    build_where_clause (.mk "operator" (some .NOT) cnd (some [c])) k =
      (build_where_clause c k).map
        (fun r => ("NOT (" ++ r.1 ++ ")", r.2.1, r.2.2)) := by
  rw [build_where_clause_operator, build_operator_not_cons]
  cases build_where_clause c k with
  | error e => rfl
  | ok r => rfl

/-- C5: over well-formed trees the join-set collector returns exactly the
set of fields referenced by any Condition node anywhere in the tree, at
any nesting depth, independent of which operators combine them. -/
theorem C5_join_set (n : QueryNode) (fs : List FieldType) (hwf : WF n)
    (h : collect_required_fields n = .ok fs) (f : FieldType) :
    f ∈ fs ↔ f ∈ spec_condition_fields n := by
  obtain ⟨fs2, h2, hm⟩ := collect_good n hwf
  have he := h.symm.trans h2
  injection he with he2
  subst he2
  exact hm f

/-- C5 witness: AND of NOT(technology) and NOT(organization) collects
exactly the technology and organization fields. -/
theorem C5_witness :
    (FieldType.technology ∈ ([.technology, .organization] : List FieldType) ↔
      FieldType.technology ∈ spec_condition_fields exDoubleNot) ∧
    (FieldType.organization ∈ ([.technology, .organization] : List FieldType) ↔
      FieldType.organization ∈ spec_condition_fields exDoubleNot) ∧
    (FieldType.job_function ∈ ([.technology, .organization] : List FieldType) ↔
      FieldType.job_function ∈ spec_condition_fields exDoubleNot) :=
  ⟨C5_join_set exDoubleNot [.technology, .organization] WF_exDoubleNot rfl .technology,
   C5_join_set exDoubleNot [.technology, .organization] WF_exDoubleNot rfl .organization,
   C5_join_set exDoubleNot [.technology, .organization] WF_exDoubleNot rfl .job_function⟩

/-- C6: the base-statement assembler emits the join clauses of a field
exactly when the field is in the join-set, emits them at most once, and
always in the fixed order organization, then technology, then
job_function, independent of where fields appear in the tree. -/
theorem C6_base_query (fs : List FieldType) :
    build_base_query fs =
      "SELECT DISTINCT jp.id, jp.datetime_pulled FROM job_posts jp"
      ++ (if FieldType.organization ∈ fs then
            " INNER JOIN organizations o ON jp.organization_id = o.id" else "")
      ++ (if FieldType.technology ∈ fs then
            " INNER JOIN job_posts_tech jpt ON jp.id = jpt.job_post_id INNER JOIN tech t ON jpt.tech_id = t.id"
          else "")
      ++ (if FieldType.job_function ∈ fs then
            " INNER JOIN job_posts_job_functions jpjf ON jp.id = jpjf.job_post_id INNER JOIN job_functions jf ON jpjf.job_function_id = jf.id"
          else "") := by
  by_cases h1 : FieldType.organization ∈ fs <;>
    by_cases h2 : FieldType.technology ∈ fs <;>
      by_cases h3 : FieldType.job_function ∈ fs <;>
        (simp only [build_base_query, h1, h2, h3, if_true, if_false]; rfl)

/-- C7: for every tree whose join collection and predicate compilation
succeed and every caller-supplied limit, the compiled statement text is
exactly the base statement, WHERE, the predicate, and LIMIT with the cap
embedded verbatim as a literal; the cap never enters the parameter list
and no bounds validation is performed on it. -/
theorem C7_final_statement (n : QueryNode) (limit : Int) (fs : List FieldType)
    (s : String) (ps : List String) (k2 : Nat)
    (hc : collect_required_fields n = .ok fs)
    (hw : build_where_clause n 0 = .ok (s, ps, k2)) :
    build_query n limit =
      .ok (build_base_query fs ++ " WHERE " ++ s ++ " LIMIT " ++ toString limit, ps) := by
  simp only [build_query, hc, hw, except_bind_ok]
  rfl

/-- C7 witness: the organization apple condition with the out-of-range
cap minus seven still compiles, splicing the cap verbatim. -/
theorem C7_witness :
    build_query exCond (-7) =
      .ok (build_base_query [FieldType.organization] ++ " WHERE " ++ "o.name ILIKE $1"
             ++ " LIMIT " ++ toString (-7 : Int), ["%apple%"]) :=
  C7_final_statement exCond (-7) [FieldType.organization] "o.name ILIKE $1"
    ["%apple%"] 1 rfl rfl

/-- C8: a node whose type tag is neither condition nor operator fails with
the ValueError naming the tag, every ValueError the predicate compiler can
raise has that unknown-tag shape, and the handler surfaces it as HTTP 400
carrying the message, never reaching the executor. -/
theorem C8_unknown_tag :
    (∀ (ty : String) (op : Option LogicalOperator) (cond : Option Condition)
       (children : Option (List QueryNode)) (k : Nat),
      ty ≠ "condition" → ty ≠ "operator" →
      build_where_clause (.mk ty op cond children) k =
        .error (.valueError ("Unknown node type: " ++ ty))) ∧
    (∀ (n : QueryNode) (k : Nat) (msg : String),
      build_where_clause n k = .error (.valueError msg) →
      ∃ ty, msg = "Unknown node type: " ++ ty ∧ ty ≠ "condition" ∧ ty ≠ "operator") ∧
    (∀ (ty : String) (op : Option LogicalOperator) (cond : Option Condition)
       (children : Option (List QueryNode)) (limit : Int),
      ty ≠ "condition" → ty ≠ "operator" →
      search_jobs (.mk ty op cond children) limit =
        .httpError 400 ("Unknown node type: " ++ ty)) := by
  refine ⟨fun ty op cond children k h1 h2 =>
            build_where_clause_unknown ty op cond children k h1 h2, ?_, ?_⟩
  · intro n k msg h
    exact (valueError_shape_aux (sizeOf n)).1 n k msg (Nat.le_refl _) h
  · intro ty op cond children limit h1 h2
    have hc := collect_unknown ty op cond children h1 h2
    have hw := build_where_clause_unknown ty op cond children 0 h1 h2
    have hq : build_query (.mk ty op cond children) limit =
        .error (.valueError ("Unknown node type: " ++ ty)) := by
      simp only [build_query, hc, hw, except_bind_ok, except_bind_error]
    simp only [search_jobs, hq]

/-- C8 witness: a node tagged filter fails with the unknown-tag ValueError
and the handler answers 400 with that message. -/
theorem C8_witness :
    build_where_clause exBadTag 0 =
      .error (.valueError "Unknown node type: filter") ∧
    search_jobs exBadTag 10 = .httpError 400 "Unknown node type: filter" :=
  ⟨C8_unknown_tag.1 "filter" none none none 0 (by decide) (by decide),
   C8_unknown_tag.2.2 "filter" none none none 10 (by decide) (by decide)⟩

/-- C9 counterexample: an AND node with zero children raises no error at
all: compilation succeeds with an empty predicate and the handler hands
the malformed statement to the executor; and a NOT node with zero
children fails with an IndexError surfaced as HTTP 500, not as a client
error. -/
theorem C9_counterexample :
    build_where_clause exAndNil 0 = .ok ("", [], 0) ∧
    search_jobs exAndNil 10 =
      .executed "SELECT DISTINCT jp.id, jp.datetime_pulled FROM job_posts jp WHERE  LIMIT 10" [] ∧
    build_where_clause exNotNil 0 = .error .indexError ∧
    search_jobs exNotNil 10 = .httpError 500 "Internal server error" :=
  ⟨rfl, rfl, rfl, rfl⟩

/-- C9 amended: operator arity violations do not produce validation
errors: a NOT node with zero children fails with IndexError, with absent
children with TypeError, both surfaced as HTTP 500 internal errors; an
AND or OR node with zero children raises nothing and yields an empty
predicate; a NOT node with two or more children raises nothing and
compiles only its first child. -/
theorem C9_amended :
    (∀ (cnd : Option Condition) (k : Nat),
      build_where_clause (.mk "operator" (some .NOT) cnd (some [])) k =
        .error .indexError) ∧
    (∀ (cnd : Option Condition) (k : Nat),
      build_where_clause (.mk "operator" (some .NOT) cnd none) k =
        .error .typeError) ∧
    (∀ (cnd : Option Condition) (limit : Int),
      search_jobs (.mk "operator" (some .NOT) cnd (some [])) limit =
        .httpError 500 "Internal server error") ∧
    (∀ (cnd : Option Condition) (limit : Int),
      search_jobs (.mk "operator" (some .NOT) cnd none) limit =
        .httpError 500 "Internal server error") ∧
    (∀ (o : LogicalOperator) (cnd : Option Condition) (k : Nat), o ≠ .NOT →
      build_where_clause (.mk "operator" (some o) cnd (some [])) k =
        .ok ("", [], k)) ∧
    (∀ (c1 c2 : QueryNode) (rest : List QueryNode) (cnd : Option Condition) (k : Nat),
      build_where_clause (.mk "operator" (some .NOT) cnd (some (c1 :: c2 :: rest))) k =
        (build_where_clause c1 k).map
          (fun r => ("NOT (" ++ r.1 ++ ")", r.2.1, r.2.2))) := by
  refine ⟨fun _ _ => rfl, fun _ _ => rfl, fun _ _ => rfl, fun _ _ => rfl, ?_, ?_⟩
  · intro o cnd k h
    cases o with
    | AND => rfl
    | OR => rfl
    | NOT => exact absurd rfl h
  · intro c1 c2 rest cnd k
    rw [build_where_clause_operator, build_operator_not_cons]
    cases build_where_clause c1 k with
    | error e => rfl
    | ok r => rfl

/-- C9 amended witness: an OR with no children succeeds with an empty
predicate, and a NOT with no children is answered with HTTP 500. -/
theorem C9_witness :
    build_where_clause (.mk "operator" (some .OR) none (some [])) 5 =
      .ok ("", [], 5) ∧
    search_jobs (.mk "operator" (some .NOT) none (some [])) 10 =
      .httpError 500 "Internal server error" :=
  ⟨C9_amended.2.2.2.2.1 .OR none 5 (by decide), C9_amended.2.2.1 none 10⟩

/-- C10: a NOT node with two or more children raises no error: only the
first child is compiled, the emitted text is NOT around the first child
predicate and the parameter list is exactly that of the first child,
while the fields of the ignored later children still contribute joins
because the collector traverses all children of every operator node. -/
theorem C10_not_extra_children :
    (∀ (c1 c2 : QueryNode) (rest : List QueryNode) (cnd : Option Condition) (k : Nat),
      build_where_clause (.mk "operator" (some .NOT) cnd (some (c1 :: c2 :: rest))) k =
        (build_where_clause c1 k).map
          (fun r => ("NOT (" ++ r.1 ++ ")", r.2.1, r.2.2))) ∧
    (∀ (c1 : QueryNode) (cs : List QueryNode) (cnd : Option Condition),
      collect_required_fields (.mk "operator" (some .NOT) cnd (some (c1 :: cs))) =
        collect_loop (c1 :: cs)) ∧
    build_where_clause exNotTwo 0 =
      .ok ("NOT (t.name ILIKE $1)", ["%java%"], 1) ∧
    collect_required_fields exNotTwo = .ok [.technology, .organization] ∧
    build_query exNotTwo 10 =
      .ok ("SELECT DISTINCT jp.id, jp.datetime_pulled FROM job_posts jp INNER JOIN organizations o ON jp.organization_id = o.id INNER JOIN job_posts_tech jpt ON jp.id = jpt.job_post_id INNER JOIN tech t ON jpt.tech_id = t.id WHERE NOT (t.name ILIKE $1) LIMIT 10",
           ["%java%"]) := by
  refine ⟨?_, fun _ _ _ => rfl, rfl, rfl, rfl⟩
  intro c1 c2 rest cnd k
  rw [build_where_clause_operator, build_operator_not_cons]
  cases build_where_clause c1 k with
  | error e => rfl
  | ok r => rfl

end Sumble
